import Mathlib

set_option maxRecDepth 8000

/-!
Shallow embedding of the synchronization core of ribeiro-social-sync.py
(class Twoot).  Pure data is modelled with Lean structures; the stateful
methods are modelled by explicit state passing.  External collaborators
(the Mastodon and Twitter clients, the HTML renderer, HTTP transport) are
modelled as an `Env` of response functions; a platform-client exception
that the source catches is modelled as an absent (`none`) result, while an
exception that the source does not catch is modelled as a `PyErr` value
that propagates through the callers exactly as the Python exception would.
-/

inductive PyErr
  | attributeError
  | typeError
deriving DecidableEq

/-- A mapping entry, source dict `{"toot_id": ..., "tweet_id": ...}`. -/
structure TwootPair where
  toot_id : Nat
  tweet_id : Nat
deriving DecidableEq

/-- A Mastodon media attachment dict: fields `type` and `url`. -/
structure MediaD where
  mtype : String
  url : String
deriving DecidableEq

/-- A toot dict with the keys the source reads. `reblog` holds the id of the
boosted toot when present, `url` is the permalink. -/
structure TootD where
  id : Nat
  in_reply_to_id : Option Nat
  in_reply_to_account_id : Option Nat
  reblog : Option Nat
  content : String
  media_attachments : List MediaD
  url : String
deriving DecidableEq

structure HttpResp where
  status : Nat
  contentType : String
  body : String
deriving DecidableEq

/-- The persisted pickle record (the keys the core mutates: the mapping
history `twoots` and the marker `last_toot`). -/
structure FileData where
  twoots : List TwootPair
  last_toot : Option Nat
deriving DecidableEq

/-- Outcome of `Twoot.run`: final on-disk state, the in-memory new mappings
accumulated by the run, and the uncaught exception if one propagated. -/
structure RunResult where
  disk : FileData
  twoots : List TwootPair
  err : Option PyErr
deriving DecidableEq

/-- The external collaborators.  Each function returns the response the
environment produces for a call; `none` models an exception raised by the
client (which the source catches at the point of use, except where noted in
the embedded methods). -/
structure Env where
  fetchSince : Nat → Nat → Option (List TootD)
  fetchAll : Nat → Option (List TootD)
  render : String → String
  httpGet : String → HttpResp
  uploadSimple : String → Option String
  uploadChunked : String → String → Option String
  tweet : String → Option Nat → List String → Option Nat
  retweet : Option Nat → Option Nat

namespace Twoot

/-- `startsWithL p l` is true when `p` is a prefix of `l`. -/
def startsWithL : List Char → List Char → Bool
  | [], _ => true
  | _ :: _, [] => false
  | p :: ps, x :: xs => (p == x) && startsWithL ps xs

/-- Python substring membership `pat in s` on character lists. -/
def occursL (pat : List Char) : List Char → Bool
  | [] => startsWithL pat []
  | x :: xs => startsWithL pat (x :: xs) || occursL pat xs

/-- Python `in` on strings. -/
def str_in (pat s : String) : Bool := occursL pat.toList s.toList

/-- ASCII whitespace as matched by the Python regex class `\s`. -/
def pySpace (c : Char) : Bool :=
  c == ' ' || c == '\t' || c == '\n' || c == '\r' || c == Char.ofNat 11 || c == Char.ofNat 12

/-- One attempt of the regex `https?://[^\s]+` anchored at the head of `l`:
on success returns the matched token and the remainder after the match. -/
def urlMatchAt (l : List Char) : Option (List Char × List Char) :=
  if startsWithL ("https://".toList) l then
    let rest0 := l.drop 8
    let tok := rest0.takeWhile (fun c => !pySpace c)
    if tok.length = 0 then none
    else some (("https://".toList) ++ tok, rest0.drop tok.length)
  else if startsWithL ("http://".toList) l then
    let rest0 := l.drop 7
    let tok := rest0.takeWhile (fun c => !pySpace c)
    if tok.length = 0 then none
    else some (("http://".toList) ++ tok, rest0.drop tok.length)
  else none

/-- `re.search("(?P<url>https?://[^\s]+)", text).group("url")`: the leftmost
match, `none` when the pattern does not occur. -/
def re_search_url : List Char → Option (List Char)
  | [] => none
  | c :: cs =>
    match urlMatchAt (c :: cs) with
    | some (m, _) => some m
    | none => re_search_url cs

/-- Worker for `re_sub_url`, structurally recursive on a fuel bound that is
at least the length of the list (each step consumes at least one char). -/
def re_sub_go : Nat → List Char → List Char
  | _, [] => []
  | 0, l => l
  | fuel + 1, c :: cs =>
    match urlMatchAt (c :: cs) with
    | some (_, rest) => re_sub_go fuel rest
    | none => c :: re_sub_go fuel cs

/-- `re.sub("(?P<url>https?://[^\s]+)", '', text)`: every non-overlapping
leftmost match removed. -/
def re_sub_url (l : List Char) : List Char := re_sub_go l.length l

/-- One `html.replace(old, new)` step for a single-character pattern. -/
def replaceChar (c : Char) (rep : List Char) : List Char → List Char
  | [] => []
  | x :: xs => (if x = c then rep else [x]) ++ replaceChar c rep xs

/-- The `escapeable` pre-conversion replacement chain of `Twoot.__html2text`
(source lines 278 to 287), applied in source order. -/
def escape_html (l : List Char) : List Char :=
  replaceChar '.' ("&#46;".toList)
    (replaceChar '-' ("&#45;".toList)
      (replaceChar '+' ("&#43;".toList)
        (replaceChar '\\' ("&#92;".toList)
          (replaceChar ' ' ("&nbsp;".toList)
            (replaceChar '\n' ("<br>".toList) l)))))

/-- The per-character effect of the whole escape chain (proved equal to
`escape_html` on singletons; later replacement steps never touch the
placeholder text introduced by earlier ones). -/
def encChar (c : Char) : List Char :=
  if c = '\n' then "<br>".toList
  else if c = ' ' then "&nbsp;".toList
  else if c = '\\' then "&#92;".toList
  else if c = '+' then "&#43;".toList
  else if c = '-' then "&#45;".toList
  else if c = '.' then "&#46;".toList
  else [c]

/-- The six placeholder sequences used by `escape_html`. -/
def placeholderTokens : List (List Char) :=
  ["<br>".toList, "&nbsp;".toList, "&#92;".toList, "&#43;".toList,
   "&#45;".toList, "&#46;".toList]

/-- `Twoot.__download_image`: absent on a non-200 status or on a content
type that does not contain the substring `image`. -/
def download_image (get : String → HttpResp) (url : String) : Option (String × String) :=
  let r := get url
  if r.status ≠ 200 then none
  else if !(str_in "image" r.contentType) then none
  else some (r.body, r.contentType)

/-- `Twoot.__download_video`: absent on a non-200 status or on a content
type that does not contain the substring `video`. -/
def download_video (get : String → HttpResp) (url : String) : Option (String × String) :=
  let r := get url
  if r.status ≠ 200 then none
  else if !(str_in "video" r.contentType) then none
  else some (r.body, r.contentType)

/-- `Twoot.__post_media_to_twitter`.  The tuple unpacking
`img, mime_type = self.__download_image(...)` sits outside the try block,
so an absent download result raises TypeError, which is modelled as
`Except.error PyErr.typeError`.  An upload exception is caught and yields
`Except.ok none`; an unknown media type falls through and returns None. -/
def post_media_to_twitter (env : Env) (media : MediaD) : Except PyErr (Option String) :=
  if media.mtype = "image" then
    match download_image env.httpGet media.url with
    | none => Except.error PyErr.typeError
    | some (img, _mime) =>
      match env.uploadSimple img with
      | some mediaId => Except.ok (some mediaId)
      | none => Except.ok none
  else if media.mtype = "gifv" then
    match download_video env.httpGet media.url with
    | none => Except.error PyErr.typeError
    | some (vid, mime) =>
      match env.uploadChunked vid mime with
      | some mediaId => Except.ok (some mediaId)
      | none => Except.ok none
  else Except.ok none

/-- The list comprehension
`[self.__post_media_to_twitter(m) for m in mastodon_media]`: evaluated
left to right, an uncaught exception aborts the whole comprehension. -/
def relay_media_list (env : Env) : List MediaD → Except PyErr (List (Option String))
  | [] => Except.ok []
  | m :: ms =>
    match post_media_to_twitter env m with
    | Except.error e => Except.error e
    | Except.ok r =>
      match relay_media_list env ms with
      | Except.error e => Except.error e
      | Except.ok rs => Except.ok (r :: rs)

/-- `Twoot.__store_twoot`: insert the new pair at the head. -/
def store_twoot (twoots : List TwootPair) (toot_id tweet_id : Nat) : List TwootPair :=
  ⟨toot_id, tweet_id⟩ :: twoots

/-- `Twoot.__find_paired_tweet`: first match in `self.twoots + self.data["twoots"]`. -/
def find_paired_tweet (twoots dataTwoots : List TwootPair) (toot_id : Nat) : Option Nat :=
  match (twoots ++ dataTwoots).find? (fun t => t.toot_id == toot_id) with
  | some t => some t.tweet_id
  | none => none

/-- Source lines 564 to 578: URL extraction, truncation and reassembly of
the tweet text from a rendered toot text and the toot permalink.  `none`
models the AttributeError raised by `.group("url")` when `re.search`
finds no URL. -/
def create_text (toot_text : String) (permalink : String) : Option String :=
  match re_search_url toot_text.toList with
  | none => none
  | some toot_links =>
    let toot_reduced := re_sub_url toot_text.toList
    let string_len : Nat := if toot_links.length > 0 then 253 - 23 else 253
    let toot_sliced :=
      if toot_text.toList.length > string_len then toot_reduced.take string_len ++ ("...".toList)
      else toot_reduced
    some (String.mk (toot_sliced ++ (" ".toList) ++ toot_links ++ (" ".toList) ++ permalink.toList))

/-- `Twoot.create_tweet_from_toot` from the boost check onward (the part
reached once the already-synced and foreign-reply skips are passed).
The final `some PyErr.attributeError` on the non-dry plain path models
source line 612, `self.create_toot_from_tweet(t, dry_run)`: the class has
no such method (and no binding for `t`), so the attribute lookup raises
AttributeError unconditionally after the tweet branch. -/
def create_tweet_rest (env : Env) (myId : Nat) (dataTwoots twoots : List TwootPair)
    (toot : TootD) (dry_run : Bool) (in_reply_to_toot_id : Option Nat) :
    List TwootPair × Option PyErr :=
  let synced_toots := (twoots ++ dataTwoots).map (fun t => t.toot_id)
  match toot.reblog with
  | some boosted_toot_id =>
    if boosted_toot_id ∈ synced_toots then
      if dry_run then (twoots, none)
      else
        match env.retweet (find_paired_tweet twoots dataTwoots boosted_toot_id) with
        | some tweet_id => (store_twoot twoots toot.id tweet_id, none)
        | none => (twoots, none)
    else (twoots, none)
  | none =>
    let mediaStep : Except PyErr (List String) :=
      if dry_run then Except.ok []
      else
        match relay_media_list env toot.media_attachments with
        | Except.error e => Except.error e
        | Except.ok rs => Except.ok (rs.filterMap id)
    match mediaStep with
    | Except.error e => (twoots, some e)
    | Except.ok media_ids =>
      match create_text (env.render toot.content) toot.url with
      | none => (twoots, some PyErr.attributeError)
      | some text =>
        if dry_run then (twoots, none)
        else
          let r :=
            match in_reply_to_toot_id with
            | some reply_id =>
              if reply_id ∈ synced_toots then
                env.tweet text (find_paired_tweet twoots dataTwoots reply_id) media_ids
              else env.tweet text none media_ids
            | none => env.tweet text none media_ids
          match r with
          | some tweet_id => (store_twoot twoots toot.id tweet_id, some PyErr.attributeError)
          | none => (twoots, some PyErr.attributeError)

/-- `Twoot.create_tweet_from_toot`: returns the updated in-memory mapping
list paired with the exception that escapes the call, if any (the Python
method mutates `self.twoots` before any such exception is raised). -/
def create_tweet_from_toot (env : Env) (myId : Nat) (dataTwoots twoots : List TwootPair)
    (toot : TootD) (dry_run : Bool) : List TwootPair × Option PyErr :=
  let synced_toots := (twoots ++ dataTwoots).map (fun t => t.toot_id)
  if toot.id ∈ synced_toots then (twoots, none)
  else
    match toot.in_reply_to_account_id with
    | some acc =>
      if acc ≠ myId then (twoots, none)
      else create_tweet_rest env myId dataTwoots twoots toot dry_run toot.in_reply_to_id
    | none => create_tweet_rest env myId dataTwoots twoots toot dry_run none

/-- Worker for `toots2tweets`: sequential processing, an uncaught
exception stops the loop and propagates. -/
def toots2tweets_go (env : Env) (myId : Nat) (dataTwoots : List TwootPair) (dry_run : Bool) :
    List TootD → List TwootPair → List TwootPair × Option PyErr
  | [], twoots => (twoots, none)
  | t :: ts, twoots =>
    match create_tweet_from_toot env myId dataTwoots twoots t dry_run with
    | (twoots', none) => toots2tweets_go env myId dataTwoots dry_run ts twoots'
    | (twoots', some e) => (twoots', some e)

/-- `Twoot.toots2tweets`: process the batch from the oldest one
(`for t in reversed(toots)`). -/
def toots2tweets (env : Env) (myId : Nat) (dataTwoots twoots : List TwootPair)
    (toots : List TootD) (dry_run : Bool) : List TwootPair × Option PyErr :=
  toots2tweets_go env myId dataTwoots dry_run toots.reverse twoots

/-- `Twoot.__update_last_id` for key `last_toot`: read-modify-write of the
latest on-disk record. -/
def update_last_id (disk : FileData) (value : Nat) : FileData :=
  { disk with last_toot := some value }

/-- `Twoot.get_new_toots`: returns the fetched batch (empty on the
marker-seeding first run and on a caught fetch exception) and the on-disk
state after the immediate marker write. -/
def get_new_toots (env : Env) (myId : Nat) (data disk : FileData) (dry_run update : Bool) :
    List TootD × FileData :=
  match data.last_toot with
  | some last_id =>
    match env.fetchSince myId last_id with
    | none => ([], disk)
    | some r =>
      match r with
      | [] => (r, disk)
      | t :: _ => if !dry_run || update then (r, update_last_id disk t.id) else (r, disk)
  | none =>
    match env.fetchAll myId with
    | none => ([], disk)
    | some r =>
      match r with
      | [] => ([], disk)
      | t :: _ => if !dry_run || update then ([], update_last_id disk t.id) else ([], disk)

/-- `Twoot.__save_data`: load the latest on-disk record, prepend the new
in-run mappings, truncate to `max_twoots`, write back. -/
def save_data (disk : FileData) (twoots : List TwootPair) (max_twoots : Nat) : FileData :=
  { disk with twoots := (twoots ++ disk.twoots).take max_twoots }

/-- Source line 65 of `Twoot.__init__`: `self.setup = False`.  The `setup`
constructor argument is ignored. -/
def init_setup (setupArg : Bool) : Bool := false

/-- `Twoot.run`: one fetch-decide-mirror-persist pass, given the state
after `__init__` (`data` is the in-memory record, `disk` the on-disk one,
`self.twoots` starts empty). -/
def run (env : Env) (myId : Nat) (setupArg : Bool) (data disk : FileData)
    (max_twoots : Nat) (dry_run update : Bool) : RunResult :=
  let setup := init_setup setupArg
  let dry2 := if dry_run && setup then false else dry_run
  let fetched := get_new_toots env myId data disk dry2 update
  let processed :=
    if setup then (([] : List TwootPair), (none : Option PyErr))
    else toots2tweets env myId data.twoots [] fetched.1 dry2
  match processed.2 with
  | some e => ⟨fetched.2, processed.1, some e⟩
  | none =>
    if processed.1.length > 0 then ⟨save_data fetched.2 processed.1 max_twoots, processed.1, none⟩
    else ⟨fetched.2, processed.1, none⟩

end Twoot

/-- Modelled from the spec: the HTML-to-text conversion step (the external
html2text library, which is not part of this repository) "restores them as
ordinary characters" for the placeholder sequences produced by
`Twoot.escape_html`.  Only this restoring action on the six placeholder
tokens is modelled; every other character passes through unchanged. -/
def decode_placeholders : List Char → List Char
  | '<' :: 'b' :: 'r' :: '>' :: rest => '\n' :: decode_placeholders rest
  | '&' :: 'n' :: 'b' :: 's' :: 'p' :: ';' :: rest => ' ' :: decode_placeholders rest
  | '&' :: '#' :: '9' :: '2' :: ';' :: rest => '\\' :: decode_placeholders rest
  | '&' :: '#' :: '4' :: '3' :: ';' :: rest => '+' :: decode_placeholders rest
  | '&' :: '#' :: '4' :: '5' :: ';' :: rest => '-' :: decode_placeholders rest
  | '&' :: '#' :: '4' :: '6' :: ';' :: rest => '.' :: decode_placeholders rest
  | x :: xs => x :: decode_placeholders xs
  | [] => []

/-- A baseline environment for concrete evaluations: every client call
fails or returns a fixed trivial response, and rendering is the identity. -/
def env0 : Env where
  fetchSince := fun _ _ => none
  fetchAll := fun _ => none
  render := fun s => s
  httpGet := fun _ => ⟨200, "image/png", ""⟩
  uploadSimple := fun _ => none
  uploadChunked := fun _ _ => none
  tweet := fun _ _ _ => none
  retweet := fun _ => none

/-- A plain toot (no reply, no boost, no media). -/
def toot11 : TootD :=
  { id := 11, in_reply_to_id := none, in_reply_to_account_id := none, reblog := none,
    content := "c", media_attachments := [], url := "https://ms.example/11" }

def data1 : FileData := { twoots := [], last_toot := some 10 }

/-- Environment for the C1 scenario: one new plain toot, rendering yields a
text with a URL, and the tweet call succeeds with id 101. -/
def env1 : Env :=
  { env0 with
    fetchSince := fun _ _ => some [toot11],
    render := fun _ => "hi https://l.example/x",
    tweet := fun _ _ _ => some 101 }

/-- A self boost of toot 5. -/
def toot12 : TootD :=
  { id := 12, in_reply_to_id := none, in_reply_to_account_id := none, reblog := some 5,
    content := "c", media_attachments := [], url := "https://ms.example/12" }

def data2 : FileData := { twoots := [⟨5, 50⟩], last_toot := some 10 }

/-- Environment for the C2 scenario: one new self boost of the
already-synced toot 5, and the retweet call succeeds with id 102. -/
def env2 : Env :=
  { env0 with
    fetchSince := fun _ _ => some [toot12],
    retweet := fun _ => some 102 }

/-- A rendered text with no URL token at all. -/
def env4 : Env := { env0 with render := fun _ => "hello world" }

def toot4 : TootD :=
  { id := 31, in_reply_to_id := none, in_reply_to_account_id := none, reblog := none,
    content := "hello world", media_attachments := [], url := "https://ms.example/31" }

/-- Parent of a self-reply thread. -/
def toot20 : TootD :=
  { id := 20, in_reply_to_id := none, in_reply_to_account_id := none, reblog := none,
    content := "c", media_attachments := [], url := "https://ms.example/20" }

/-- Self reply to toot 20 by account 1. -/
def toot21 : TootD :=
  { id := 21, in_reply_to_id := some 20, in_reply_to_account_id := some 1, reblog := none,
    content := "c", media_attachments := [], url := "https://ms.example/21" }

/-- Environment for the C7 scenario: rendering yields a URL-bearing text
and every tweet call succeeds with id 201. -/
def env7 : Env :=
  { env0 with
    render := fun _ => "hi https://l.example/x",
    tweet := fun _ _ _ => some 201 }

/-- HTTP transport answering every GET with status 500. -/
def get500 : String → HttpResp := fun _ => ⟨500, "image/jpeg", "bin"⟩

/-- HTTP transport answering every GET with a non-image content type. -/
def getHtml : String → HttpResp := fun _ => ⟨200, "text/html", "bin"⟩

def env9a : Env := { env0 with httpGet := get500 }

def env9b : Env := { env0 with httpGet := getHtml }

def mediaImg : MediaD := ⟨"image", "https://files.ms.example/img.png"⟩

/-- A long URL (238 characters). -/
def c3Url : String := "https://" ++ String.mk (List.replicate 230 'b')

/-- A rendered text of 240 characters whose URL-free remainder has only 2
characters: longer than the 230 budget as a whole, far below it once the
URL is removed. -/
def c3Text : String := "x " ++ c3Url

/-- A rendered text with a 300-character plain body and exactly one URL. -/
def c3Witness : String :=
  String.mk (List.replicate 150 'a') ++ " https://u " ++ String.mk (List.replicate 150 'a')

/-- New mappings of a first run (3 entries, newest first). -/
def run1new : List TwootPair := [⟨3, 103⟩, ⟨2, 102⟩, ⟨1, 101⟩]

/-- New mappings of a second run (5 entries, newest first). -/
def run2new : List TwootPair := [⟨8, 108⟩, ⟨7, 107⟩, ⟨6, 106⟩, ⟨5, 105⟩, ⟨4, 104⟩]

/-- An input containing each escaped character but no placeholder token. -/
def roundtripSample : List Char := "a.b\nc d e\\f+g-h".toList

/-- A toot that is already recorded in the persisted mapping history. -/
def tootDup : TootD :=
  { id := 1, in_reply_to_id := none, in_reply_to_account_id := none, reblog := none,
    content := "c", media_attachments := [], url := "https://ms.example/1" }

theorem startsWithL_length : ∀ {p l : List Char}, Twoot.startsWithL p l = true → p.length ≤ l.length := by
  intro p
  induction p with
  | nil => intro l _; exact Nat.zero_le _
  | cons c cs ih =>
    intro l h
    cases l with
    | nil => simp [Twoot.startsWithL] at h
    | cons x xs =>
      simp only [Twoot.startsWithL, Bool.and_eq_true] at h
      simpa using ih h.2

theorem urlMatchAt_rest_lt {l m rest : List Char}
    (h : Twoot.urlMatchAt l = some (m, rest)) : rest.length < l.length := by
  simp only [Twoot.urlMatchAt] at h
  split at h
  case isTrue hsw =>
    have h8 : 8 ≤ l.length := by
      have := startsWithL_length hsw
      simpa using this
    split at h
    · exact absurd h (by simp)
    · simp only [Option.some.injEq, Prod.mk.injEq] at h
      rw [← h.2]
      simp only [List.length_drop]
      omega
  case isFalse =>
    split at h
    case isTrue hsw =>
      have h7 : 7 ≤ l.length := by
        have := startsWithL_length hsw
        simpa using this
      split at h
      · exact absurd h (by simp)
      · simp only [Option.some.injEq, Prod.mk.injEq] at h
        rw [← h.2]
        simp only [List.length_drop]
        omega
    case isFalse => exact absurd h (by simp)

theorem re_sub_go_length_le : ∀ (fuel : Nat) (l : List Char),
    (Twoot.re_sub_go fuel l).length ≤ l.length := by
  intro fuel
  induction fuel with
  | zero => intro l; cases l <;> simp [Twoot.re_sub_go]
  | succ n ih =>
    intro l
    cases l with
    | nil => simp [Twoot.re_sub_go]
    | cons c cs =>
      simp only [Twoot.re_sub_go]
      split
      case h_1 m rest hmatch =>
        have h1 := urlMatchAt_rest_lt hmatch
        have h2 := ih rest
        simp only [List.length_cons] at h1 ⊢
        omega
      case h_2 =>
        simp only [List.length_cons]
        exact Nat.succ_le_succ (ih cs)

theorem re_sub_url_length_le (l : List Char) :
    (Twoot.re_sub_url l).length ≤ l.length :=
  re_sub_go_length_le l.length l

theorem urlMatchAt_some_pos {l m rest : List Char}
    (h : Twoot.urlMatchAt l = some (m, rest)) : 0 < m.length := by
  simp only [Twoot.urlMatchAt] at h
  split at h
  · split at h
    · exact absurd h (by simp)
    · simp only [Option.some.injEq, Prod.mk.injEq] at h
      rw [← h.1]
      simp
  · split at h
    · split at h
      · exact absurd h (by simp)
      · simp only [Option.some.injEq, Prod.mk.injEq] at h
        rw [← h.1]
        simp
    · exact absurd h (by simp)

theorem re_search_url_pos : ∀ {l url : List Char},
    Twoot.re_search_url l = some url → 0 < url.length := by
  intro l
  induction l with
  | nil => intro url h; simp [Twoot.re_search_url] at h
  | cons c cs ih =>
    intro url h
    simp only [Twoot.re_search_url] at h
    split at h
    case h_1 m rest hmatch =>
      cases h
      exact urlMatchAt_some_pos hmatch
    case h_2 => exact ih h

/-- Claim C3, amended: for every rendered text containing a URL token, the
assembled tweet text is body, space, first URL, space, permalink, where the
body is the rendered text with every URL token removed, is truncated to the
230-character budget with an ellipsis appended exactly when the whole
rendered text (URL included) exceeds 230 characters, and hence never
exceeds 233 characters. -/
theorem create_text_amended_spec (t p : String) (url : List Char)
    (h : Twoot.re_search_url t.toList = some url) :
    ∃ body : List Char,
      Twoot.create_text t p =
        some (String.mk (body ++ (" ".toList) ++ url ++ (" ".toList) ++ p.toList)) ∧
      body.length ≤ 233 ∧
      (t.toList.length ≤ 230 → body = Twoot.re_sub_url t.toList) ∧
      (230 < t.toList.length →
        body = (Twoot.re_sub_url t.toList).take 230 ++ ("...".toList)) := by
  have hpos : 0 < url.length := re_search_url_pos h
  have hsub : (Twoot.re_sub_url t.toList).length ≤ t.toList.length := re_sub_url_length_le _
  simp only [Twoot.create_text, h]
  have h230 : (if url.length > 0 then 253 - 23 else 253) = 230 := by
    rw [if_pos hpos]
  rw [h230]
  by_cases hl : t.toList.length > 230
  · rw [if_pos hl]
    refine ⟨(Twoot.re_sub_url t.toList).take 230 ++ ("...".toList), rfl, ?_, ?_, ?_⟩
    · have h3 : ("...".toList).length = 3 := by decide
      have hmin : min 230 (Twoot.re_sub_url t.toList).length ≤ 230 := Nat.min_le_left _ _
      simp only [List.length_append, List.length_take, h3]
      omega
    · intro hle; omega
    · intro _; rfl
  · rw [if_neg hl]
    refine ⟨Twoot.re_sub_url t.toList, rfl, ?_, ?_, ?_⟩
    · omega
    · intro _; rfl
    · intro hgt; omega

/-- Claim C3, witness: the amended statement instantiated at a rendered
text with a 300-character plain body and exactly one URL. -/
theorem create_text_amended_spec_witness :
    ∃ body : List Char,
      Twoot.create_text c3Witness "https://ms.example/w" =
        some (String.mk (body ++ (" ".toList) ++ ("https://u".toList) ++ (" ".toList) ++
          ("https://ms.example/w").toList)) ∧
      body.length ≤ 233 ∧
      (c3Witness.toList.length ≤ 230 → body = Twoot.re_sub_url c3Witness.toList) ∧
      (230 < c3Witness.toList.length →
        body = (Twoot.re_sub_url c3Witness.toList).take 230 ++ ("...".toList)) :=
  create_text_amended_spec c3Witness "https://ms.example/w" ("https://u".toList) (by decide)

theorem create_tweet_dry_keeps_twoots (env : Env) (myId : Nat)
    (dataTwoots twoots : List TwootPair) (toot : TootD) :
    (Twoot.create_tweet_from_toot env myId dataTwoots twoots toot true).1 = twoots := by
  simp only [Twoot.create_tweet_from_toot, Twoot.create_tweet_rest]
  repeat first | rfl | split

theorem toots2tweets_go_dry (env : Env) (myId : Nat) (dataTwoots : List TwootPair) :
    ∀ (ts : List TootD) (twoots : List TwootPair),
      (Twoot.toots2tweets_go env myId dataTwoots true ts twoots).1 = twoots := by
  intro ts
  induction ts with
  | nil => intro twoots; rfl
  | cons t ts ih =>
    intro twoots
    have h1 := create_tweet_dry_keeps_twoots env myId dataTwoots twoots t
    simp only [Twoot.toots2tweets_go]
    split
    case h_1 twoots' heq =>
      rw [heq] at h1
      simp only at h1
      rw [ih twoots', h1]
    case h_2 twoots' e heq =>
      rw [heq] at h1
      simpa using h1

theorem toots2tweets_dry (env : Env) (myId : Nat) (dataTwoots twoots : List TwootPair)
    (toots : List TootD) :
    (Twoot.toots2tweets env myId dataTwoots twoots toots true).1 = twoots :=
  toots2tweets_go_dry env myId dataTwoots toots.reverse twoots

theorem get_new_toots_dry (env : Env) (myId : Nat) (data disk : FileData) :
    (Twoot.get_new_toots env myId data disk true false).2 = disk := by
  simp only [Twoot.get_new_toots]
  repeat first | rfl | split

/-- Claim C5: with dry-run enabled and the update flag disabled, a run
leaves the persisted state (marker and mapping history) unchanged and
records no mapping, for every environment, every starting state and every
batch the environment produces, whether or not the run ends in an
uncaught error. -/
theorem dry_run_non_mutation (env : Env) (myId : Nat) (setupArg : Bool)
    (data disk : FileData) (maxT : Nat) :
    (Twoot.run env myId setupArg data disk maxT true false).disk = disk ∧
    (Twoot.run env myId setupArg data disk maxT true false).twoots = [] := by
  have hg := get_new_toots_dry env myId data disk
  have ht := toots2tweets_dry env myId data.twoots []
    (Twoot.get_new_toots env myId data disk true false).1
  simp only [Twoot.run, Twoot.init_setup, Bool.and_false, if_neg, ite_false]
  rcases hp : Twoot.toots2tweets env myId data.twoots []
      (Twoot.get_new_toots env myId data disk true false).1 true with ⟨tw, e⟩
  rw [hp] at ht
  simp only at ht
  subst ht
  cases e with
  | some e => simp [hp, hg]
  | none => simp [hp, hg]

theorem create_tweet_result_shape (env : Env) (myId : Nat)
    (dataTwoots twoots : List TwootPair) (toot : TootD) (dry_run : Bool) :
    (Twoot.create_tweet_from_toot env myId dataTwoots twoots toot dry_run).1 = twoots ∨
    ∃ tid, (Twoot.create_tweet_from_toot env myId dataTwoots twoots toot dry_run).1 =
      ⟨toot.id, tid⟩ :: twoots := by
  simp only [Twoot.create_tweet_from_toot, Twoot.create_tweet_rest, Twoot.store_twoot]
  repeat first | exact Or.inl rfl | exact Or.inr ⟨_, rfl⟩ | split

/-- Claim C6: if the source post ids of the concatenated mapping history
(in-memory new mappings first, then the persisted ones) are pairwise
distinct, then the Decision Engine skips without changing anything every
candidate whose id is already in that concatenation (for every
environment and mode), and the concatenation after processing any
candidate still has pairwise distinct source post ids. -/
theorem create_tweet_at_most_once (env : Env) (myId : Nat)
    (dataTwoots twoots : List TwootPair) (toot : TootD) (dry_run : Bool)
    (h : ((twoots ++ dataTwoots).map TwootPair.toot_id).Nodup) :
    (toot.id ∈ (twoots ++ dataTwoots).map TwootPair.toot_id →
      Twoot.create_tweet_from_toot env myId dataTwoots twoots toot dry_run = (twoots, none)) ∧
    (((Twoot.create_tweet_from_toot env myId dataTwoots twoots toot dry_run).1
        ++ dataTwoots).map TwootPair.toot_id).Nodup := by
  have hskip : toot.id ∈ (twoots ++ dataTwoots).map TwootPair.toot_id →
      Twoot.create_tweet_from_toot env myId dataTwoots twoots toot dry_run = (twoots, none) := by
    intro hmem
    simp only [Twoot.create_tweet_from_toot]
    rw [if_pos hmem]
  refine ⟨hskip, ?_⟩
  by_cases hmem : toot.id ∈ (twoots ++ dataTwoots).map TwootPair.toot_id
  · rw [hskip hmem]
    exact h
  · rcases create_tweet_result_shape env myId dataTwoots twoots toot dry_run with h1 | ⟨tid, h1⟩
    · rw [h1]; exact h
    · rw [h1]
      simp only [List.cons_append, List.map_cons, List.nodup_cons]
      exact ⟨hmem, h⟩

/-- Claim C6, witness: the statement instantiated with a persisted history
containing the single mapping ⟨1, 2⟩ and the candidate toot with the same
source id 1, which is skipped. -/
theorem create_tweet_at_most_once_witness :
    (tootDup.id ∈ (([] ++ [(⟨1, 2⟩ : TwootPair)]).map TwootPair.toot_id) →
      Twoot.create_tweet_from_toot env0 1 [⟨1, 2⟩] [] tootDup true = ([], none)) ∧
    (((Twoot.create_tweet_from_toot env0 1 [⟨1, 2⟩] [] tootDup true).1
        ++ [(⟨1, 2⟩ : TwootPair)]).map TwootPair.toot_id).Nodup :=
  create_tweet_at_most_once env0 1 [⟨1, 2⟩] [] tootDup true (by decide)

theorem take_append_take {α : Type} (a b : List α) (m : Nat) :
    (a ++ b.take m).take m = (a ++ b).take m := by
  rw [List.take_append_eq_append_take, List.take_append_eq_append_take, List.take_take,
    Nat.min_eq_left (Nat.sub_le m a.length)]

/-- Claim C8: the end-of-run save prepends the new in-run mappings
(newest first) to the freshest on-disk history and truncates to the
retention limit; across two runs the result is the truncation of all
accumulated mappings, so with `max_twoots = 5` and 8 mappings accumulated
over two runs exactly the 5 newest remain, newest first. -/
theorem save_data_retention (disk : FileData) (n1 n2 : List TwootPair) (m : Nat) :
    (Twoot.save_data disk n1 m).twoots = (n1 ++ disk.twoots).take m ∧
    (Twoot.save_data (Twoot.save_data disk n1 m) n2 m).twoots =
      ((n2 ++ n1) ++ disk.twoots).take m ∧
    (Twoot.save_data (Twoot.save_data ⟨[], none⟩ run1new 5) run2new 5).twoots =
      [⟨8, 108⟩, ⟨7, 107⟩, ⟨6, 106⟩, ⟨5, 105⟩, ⟨4, 104⟩] := by
  refine ⟨rfl, ?_, by decide⟩
  show (n2 ++ (n1 ++ disk.twoots).take m).take m = ((n2 ++ n1) ++ disk.twoots).take m
  rw [List.append_assoc]
  exact take_append_take n2 (n1 ++ disk.twoots) m

theorem replaceChar_append (c : Char) (rep : List Char) (a b : List Char) :
    Twoot.replaceChar c rep (a ++ b) =
      Twoot.replaceChar c rep a ++ Twoot.replaceChar c rep b := by
  induction a with
  | nil => rfl
  | cons x xs ih => simp [Twoot.replaceChar, ih, List.append_assoc]

theorem escape_html_append (a b : List Char) :
    Twoot.escape_html (a ++ b) = Twoot.escape_html a ++ Twoot.escape_html b := by
  simp [Twoot.escape_html, replaceChar_append]

theorem escape_html_single (c : Char) : Twoot.escape_html [c] = Twoot.encChar c := by
  by_cases h1 : c = '\n'
  · subst h1; decide
  by_cases h2 : c = ' '
  · subst h2; decide
  by_cases h3 : c = '\\'
  · subst h3; decide
  by_cases h4 : c = '+'
  · subst h4; decide
  by_cases h5 : c = '-'
  · subst h5; decide
  by_cases h6 : c = '.'
  · subst h6; decide
  simp [Twoot.escape_html, Twoot.replaceChar, Twoot.encChar, h1, h2, h3, h4, h5, h6]

theorem escape_html_cons (c : Char) (s : List Char) :
    Twoot.escape_html (c :: s) = Twoot.encChar c ++ Twoot.escape_html s := by
  have h : c :: s = [c] ++ s := rfl
  rw [h, escape_html_append, escape_html_single]

theorem startsWithL_inert_escape :
    ∀ (w : List Char), (∀ a ∈ w, Twoot.encChar a = [a] ∧ a ≠ '<' ∧ a ≠ '&') →
      ∀ (s : List Char), Twoot.startsWithL w (Twoot.escape_html s) = true →
        Twoot.startsWithL w s = true := by
  intro w
  induction w with
  | nil => intro _ s _; rfl
  | cons d w' ih =>
    intro hw s hsw
    obtain ⟨hd_enc, hd_lt, hd_amp⟩ := hw d (List.mem_cons_self d w')
    cases s with
    | nil =>
      rw [show Twoot.escape_html [] = [] from rfl] at hsw
      simp [Twoot.startsWithL] at hsw
    | cons c s' =>
      rw [escape_html_cons] at hsw
      by_cases h1 : c = '\n'
      · exfalso; subst h1
        rw [show Twoot.encChar '\n' = '<' :: 'b' :: 'r' :: '>' :: ([] : List Char) from rfl] at hsw
        simp only [List.cons_append, Twoot.startsWithL, Bool.and_eq_true, beq_iff_eq] at hsw
        exact hd_lt hsw.1
      by_cases h2 : c = ' '
      · exfalso; subst h2
        rw [show Twoot.encChar ' ' =
              '&' :: 'n' :: 'b' :: 's' :: 'p' :: ';' :: ([] : List Char) from rfl] at hsw
        simp only [List.cons_append, Twoot.startsWithL, Bool.and_eq_true, beq_iff_eq] at hsw
        exact hd_amp hsw.1
      by_cases h3 : c = '\\'
      · exfalso; subst h3
        rw [show Twoot.encChar '\\' =
              '&' :: '#' :: '9' :: '2' :: ';' :: ([] : List Char) from rfl] at hsw
        simp only [List.cons_append, Twoot.startsWithL, Bool.and_eq_true, beq_iff_eq] at hsw
        exact hd_amp hsw.1
      by_cases h4 : c = '+'
      · exfalso; subst h4
        rw [show Twoot.encChar '+' =
              '&' :: '#' :: '4' :: '3' :: ';' :: ([] : List Char) from rfl] at hsw
        simp only [List.cons_append, Twoot.startsWithL, Bool.and_eq_true, beq_iff_eq] at hsw
        exact hd_amp hsw.1
      by_cases h5 : c = '-'
      · exfalso; subst h5
        rw [show Twoot.encChar '-' =
              '&' :: '#' :: '4' :: '5' :: ';' :: ([] : List Char) from rfl] at hsw
        simp only [List.cons_append, Twoot.startsWithL, Bool.and_eq_true, beq_iff_eq] at hsw
        exact hd_amp hsw.1
      by_cases h6 : c = '.'
      · exfalso; subst h6
        rw [show Twoot.encChar '.' =
              '&' :: '#' :: '4' :: '6' :: ';' :: ([] : List Char) from rfl] at hsw
        simp only [List.cons_append, Twoot.startsWithL, Bool.and_eq_true, beq_iff_eq] at hsw
        exact hd_amp hsw.1
      have henc : Twoot.encChar c = [c] := by
        simp [Twoot.encChar, h1, h2, h3, h4, h5, h6]
      rw [henc, List.singleton_append] at hsw
      simp only [Twoot.startsWithL, Bool.and_eq_true, beq_iff_eq] at hsw ⊢
      exact ⟨hsw.1, ih (fun a ha => hw a (List.mem_cons_of_mem d ha)) s' hsw.2⟩

theorem occursL_cons_false {pat : List Char} {c : Char} {l : List Char}
    (h : Twoot.occursL pat (c :: l) = false) :
    Twoot.startsWithL pat (c :: l) = false ∧ Twoot.occursL pat l = false := by
  simp only [Twoot.occursL, Bool.or_eq_false_iff] at h
  exact h

theorem decode_step_br (t : List Char) :
    decode_placeholders ('<' :: 'b' :: 'r' :: '>' :: t) = '\n' :: decode_placeholders t := rfl

theorem decode_step_nbsp (t : List Char) :
    decode_placeholders ('&' :: 'n' :: 'b' :: 's' :: 'p' :: ';' :: t) =
      ' ' :: decode_placeholders t := rfl

theorem decode_step_92 (t : List Char) :
    decode_placeholders ('&' :: '#' :: '9' :: '2' :: ';' :: t) =
      '\\' :: decode_placeholders t := rfl

theorem decode_step_43 (t : List Char) :
    decode_placeholders ('&' :: '#' :: '4' :: '3' :: ';' :: t) =
      '+' :: decode_placeholders t := rfl

theorem decode_step_45 (t : List Char) :
    decode_placeholders ('&' :: '#' :: '4' :: '5' :: ';' :: t) =
      '-' :: decode_placeholders t := rfl

theorem decode_step_46 (t : List Char) :
    decode_placeholders ('&' :: '#' :: '4' :: '6' :: ';' :: t) =
      '.' :: decode_placeholders t := rfl

set_option maxHeartbeats 3200000 in
theorem decode_cons_plain (c : Char) (t : List Char) (h1 : c ≠ '<') (h2 : c ≠ '&') :
    decode_placeholders (c :: t) = c :: decode_placeholders t := by
  rw [decode_placeholders.eq_def]
  split
  case h_1 rest heq => injection heq with hc _; exact absurd hc h1
  case h_2 rest heq => injection heq with hc _; exact absurd hc h2
  case h_3 rest heq => injection heq with hc _; exact absurd hc h2
  case h_4 rest heq => injection heq with hc _; exact absurd hc h2
  case h_5 rest heq => injection heq with hc _; exact absurd hc h2
  case h_6 rest heq => injection heq with hc _; exact absurd hc h2
  case h_7 x xs _ _ _ _ _ _ heq =>
    injection heq with hx hxs
    rw [hx, hxs]
  case h_8 heq => exact absurd heq (by simp)

set_option maxHeartbeats 3200000 in
theorem decode_cons_lt (t : List Char)
    (hbr : Twoot.startsWithL ('b' :: 'r' :: '>' :: ([] : List Char)) t = false) :
    decode_placeholders ('<' :: t) = '<' :: decode_placeholders t := by
  rw [decode_placeholders.eq_def]
  split
  case h_1 rest heq =>
    injection heq with _ ht
    subst ht
    simp [Twoot.startsWithL] at hbr
  case h_2 rest heq => injection heq with hc _; exact absurd hc (by decide)
  case h_3 rest heq => injection heq with hc _; exact absurd hc (by decide)
  case h_4 rest heq => injection heq with hc _; exact absurd hc (by decide)
  case h_5 rest heq => injection heq with hc _; exact absurd hc (by decide)
  case h_6 rest heq => injection heq with hc _; exact absurd hc (by decide)
  case h_7 x xs _ _ _ _ _ _ heq =>
    injection heq with hx hxs
    rw [hx, hxs]
  case h_8 heq => exact absurd heq (by simp)

set_option maxHeartbeats 3200000 in
theorem decode_cons_amp (t : List Char)
    (hn : Twoot.startsWithL ("nbsp;".toList) t = false)
    (h92 : Twoot.startsWithL ("#92;".toList) t = false)
    (h43 : Twoot.startsWithL ("#43;".toList) t = false)
    (h45 : Twoot.startsWithL ("#45;".toList) t = false)
    (h46 : Twoot.startsWithL ("#46;".toList) t = false) :
    decode_placeholders ('&' :: t) = '&' :: decode_placeholders t := by
  rw [decode_placeholders.eq_def]
  split
  case h_1 rest heq => injection heq with hc _; exact absurd hc (by decide)
  case h_2 rest heq =>
    injection heq with _ ht
    subst ht
    simp [Twoot.startsWithL] at hn
  case h_3 rest heq =>
    injection heq with _ ht
    subst ht
    simp [Twoot.startsWithL] at h92
  case h_4 rest heq =>
    injection heq with _ ht
    subst ht
    simp [Twoot.startsWithL] at h43
  case h_5 rest heq =>
    injection heq with _ ht
    subst ht
    simp [Twoot.startsWithL] at h45
  case h_6 rest heq =>
    injection heq with _ ht
    subst ht
    simp [Twoot.startsWithL] at h46
  case h_7 x xs _ _ _ _ _ _ heq =>
    injection heq with hx hxs
    rw [hx, hxs]
  case h_8 heq => exact absurd heq (by simp)

/-- Claim C10, amended: the placeholder round-trip is exact on every input
that contains no occurrence of a placeholder token, that is, restoring the
placeholders after `escape_html` gives back exactly the original
characters; on inputs that already contain a placeholder token (such as
"&nbsp;" or "<br>") the escape step collides with escaped characters, so
no restoration is possible there. -/
theorem escape_roundtrip_exact (s : List Char)
    (h : ∀ tok ∈ Twoot.placeholderTokens, Twoot.occursL tok s = false) :
    decode_placeholders (Twoot.escape_html s) = s := by
  induction s with
  | nil => rfl
  | cons c s' ih =>
    have h' : ∀ tok ∈ Twoot.placeholderTokens, Twoot.occursL tok s' = false := by
      intro tok ht
      exact (occursL_cons_false (h tok ht)).2
    have hstart : ∀ tok ∈ Twoot.placeholderTokens, Twoot.startsWithL tok (c :: s') = false := by
      intro tok ht
      exact (occursL_cons_false (h tok ht)).1
    rw [escape_html_cons]
    by_cases h1 : c = '\n'
    · subst h1
      rw [show Twoot.encChar '\n' = '<' :: 'b' :: 'r' :: '>' :: ([] : List Char) from rfl]
      rw [show ('<' :: 'b' :: 'r' :: '>' :: ([] : List Char)) ++ Twoot.escape_html s' =
            '<' :: 'b' :: 'r' :: '>' :: Twoot.escape_html s' from rfl]
      rw [decode_step_br, ih h']
    by_cases h2 : c = ' '
    · subst h2
      rw [show Twoot.encChar ' ' = '&' :: 'n' :: 'b' :: 's' :: 'p' :: ';' :: ([] : List Char) from rfl]
      rw [show ('&' :: 'n' :: 'b' :: 's' :: 'p' :: ';' :: ([] : List Char)) ++ Twoot.escape_html s' =
            '&' :: 'n' :: 'b' :: 's' :: 'p' :: ';' :: Twoot.escape_html s' from rfl]
      rw [decode_step_nbsp, ih h']
    by_cases h3 : c = '\\'
    · subst h3
      rw [show Twoot.encChar '\\' = '&' :: '#' :: '9' :: '2' :: ';' :: ([] : List Char) from rfl]
      rw [show ('&' :: '#' :: '9' :: '2' :: ';' :: ([] : List Char)) ++ Twoot.escape_html s' =
            '&' :: '#' :: '9' :: '2' :: ';' :: Twoot.escape_html s' from rfl]
      rw [decode_step_92, ih h']
    by_cases h4 : c = '+'
    · subst h4
      rw [show Twoot.encChar '+' = '&' :: '#' :: '4' :: '3' :: ';' :: ([] : List Char) from rfl]
      rw [show ('&' :: '#' :: '4' :: '3' :: ';' :: ([] : List Char)) ++ Twoot.escape_html s' =
            '&' :: '#' :: '4' :: '3' :: ';' :: Twoot.escape_html s' from rfl]
      rw [decode_step_43, ih h']
    by_cases h5 : c = '-'
    · subst h5
      rw [show Twoot.encChar '-' = '&' :: '#' :: '4' :: '5' :: ';' :: ([] : List Char) from rfl]
      rw [show ('&' :: '#' :: '4' :: '5' :: ';' :: ([] : List Char)) ++ Twoot.escape_html s' =
            '&' :: '#' :: '4' :: '5' :: ';' :: Twoot.escape_html s' from rfl]
      rw [decode_step_45, ih h']
    by_cases h6 : c = '.'
    · subst h6
      rw [show Twoot.encChar '.' = '&' :: '#' :: '4' :: '6' :: ';' :: ([] : List Char) from rfl]
      rw [show ('&' :: '#' :: '4' :: '6' :: ';' :: ([] : List Char)) ++ Twoot.escape_html s' =
            '&' :: '#' :: '4' :: '6' :: ';' :: Twoot.escape_html s' from rfl]
      rw [decode_step_46, ih h']
    have henc : Twoot.encChar c = [c] := by
      simp [Twoot.encChar, h1, h2, h3, h4, h5, h6]
    rw [henc, List.singleton_append]
    by_cases hlt : c = '<'
    · subst hlt
      have hbr : Twoot.startsWithL ('b' :: 'r' :: '>' :: ([] : List Char))
          (Twoot.escape_html s') = false := by
        cases hx : Twoot.startsWithL ('b' :: 'r' :: '>' :: ([] : List Char))
            (Twoot.escape_html s') with
        | false => rfl
        | true =>
          exfalso
          have hs := startsWithL_inert_escape ('b' :: 'r' :: '>' :: ([] : List Char))
            (by decide) s' hx
          have hh := hstart ("<br>".toList) (by decide)
          rw [show ("<br>".toList) = '<' :: 'b' :: 'r' :: '>' :: ([] : List Char) from rfl] at hh
          simp only [Twoot.startsWithL, beq_self_eq_true, Bool.true_and] at hh
          simp [hs] at hh
      rw [decode_cons_lt _ hbr, ih h']
    by_cases hamp : c = '&'
    · subst hamp
      have hn : Twoot.startsWithL ("nbsp;".toList) (Twoot.escape_html s') = false := by
        cases hx : Twoot.startsWithL ("nbsp;".toList) (Twoot.escape_html s') with
        | false => rfl
        | true =>
          exfalso
          have hs := startsWithL_inert_escape ("nbsp;".toList) (by decide) s' hx
          have hh := hstart ("&nbsp;".toList) (by decide)
          rw [show ("&nbsp;".toList) = '&' :: ("nbsp;".toList) from rfl] at hh
          simp only [Twoot.startsWithL, beq_self_eq_true, Bool.true_and] at hh
          rw [show ("nbsp;".toList : List Char) = ['n', 'b', 's', 'p', ';'] from rfl] at hs
          rw [show ("nbsp;".toList : List Char) = ['n', 'b', 's', 'p', ';'] from rfl] at hh
          rw [hs] at hh
          exact absurd hh (by simp)
      have h92 : Twoot.startsWithL ("#92;".toList) (Twoot.escape_html s') = false := by
        cases hx : Twoot.startsWithL ("#92;".toList) (Twoot.escape_html s') with
        | false => rfl
        | true =>
          exfalso
          have hs := startsWithL_inert_escape ("#92;".toList) (by decide) s' hx
          have hh := hstart ("&#92;".toList) (by decide)
          rw [show ("&#92;".toList) = '&' :: ("#92;".toList) from rfl] at hh
          simp only [Twoot.startsWithL, beq_self_eq_true, Bool.true_and] at hh
          rw [show ("#92;".toList : List Char) = ['#', '9', '2', ';'] from rfl] at hs
          rw [show ("#92;".toList : List Char) = ['#', '9', '2', ';'] from rfl] at hh
          rw [hs] at hh
          exact absurd hh (by simp)
      have h43 : Twoot.startsWithL ("#43;".toList) (Twoot.escape_html s') = false := by
        cases hx : Twoot.startsWithL ("#43;".toList) (Twoot.escape_html s') with
        | false => rfl
        | true =>
          exfalso
          have hs := startsWithL_inert_escape ("#43;".toList) (by decide) s' hx
          have hh := hstart ("&#43;".toList) (by decide)
          rw [show ("&#43;".toList) = '&' :: ("#43;".toList) from rfl] at hh
          simp only [Twoot.startsWithL, beq_self_eq_true, Bool.true_and] at hh
          rw [show ("#43;".toList : List Char) = ['#', '4', '3', ';'] from rfl] at hs
          rw [show ("#43;".toList : List Char) = ['#', '4', '3', ';'] from rfl] at hh
          rw [hs] at hh
          exact absurd hh (by simp)
      have h45 : Twoot.startsWithL ("#45;".toList) (Twoot.escape_html s') = false := by
        cases hx : Twoot.startsWithL ("#45;".toList) (Twoot.escape_html s') with
        | false => rfl
        | true =>
          exfalso
          have hs := startsWithL_inert_escape ("#45;".toList) (by decide) s' hx
          have hh := hstart ("&#45;".toList) (by decide)
          rw [show ("&#45;".toList) = '&' :: ("#45;".toList) from rfl] at hh
          simp only [Twoot.startsWithL, beq_self_eq_true, Bool.true_and] at hh
          rw [show ("#45;".toList : List Char) = ['#', '4', '5', ';'] from rfl] at hs
          rw [show ("#45;".toList : List Char) = ['#', '4', '5', ';'] from rfl] at hh
          rw [hs] at hh
          exact absurd hh (by simp)
      have h46 : Twoot.startsWithL ("#46;".toList) (Twoot.escape_html s') = false := by
        cases hx : Twoot.startsWithL ("#46;".toList) (Twoot.escape_html s') with
        | false => rfl
        | true =>
          exfalso
          have hs := startsWithL_inert_escape ("#46;".toList) (by decide) s' hx
          have hh := hstart ("&#46;".toList) (by decide)
          rw [show ("&#46;".toList) = '&' :: ("#46;".toList) from rfl] at hh
          simp only [Twoot.startsWithL, beq_self_eq_true, Bool.true_and] at hh
          rw [show ("#46;".toList : List Char) = ['#', '4', '6', ';'] from rfl] at hs
          rw [show ("#46;".toList : List Char) = ['#', '4', '6', ';'] from rfl] at hh
          rw [hs] at hh
          exact absurd hh (by simp)
      rw [decode_cons_amp _ hn h92 h43 h45 h46, ih h']
    rw [decode_cons_plain c _ hlt hamp, ih h']

/-- Claim C10, witness: the amended round-trip instantiated at an input
containing every escaped character but no placeholder token. -/
theorem escape_roundtrip_exact_witness :
    decode_placeholders (Twoot.escape_html roundtripSample) = roundtripSample :=
  escape_roundtrip_exact roundtripSample (by decide)

/-- Claim C1: the claim says that after the Decision Engine successfully
mirrors a plain post and records its mapping, the batch runs to completion
and the end-of-run save executes.  Evaluating the embedded code on a
non-dry run with one new plain toot whose tweet call succeeds shows the
opposite: the mapping ⟨11, 101⟩ is recorded in memory, but an
AttributeError (source line 612, the call to the nonexistent method
`create_toot_from_tweet`) propagates out of the run, and the final on-disk
mapping history is still empty because `__save_data` is never reached. -/
theorem run_aborts_after_plain_mirror :
    Twoot.run env1 1 false data1 data1 100 false false =
      ⟨{ twoots := [], last_toot := some 11 }, [⟨11, 101⟩], some PyErr.attributeError⟩ := by
  decide

/-- Claim C2: the claim says a setup-mode run performs no mirroring.
Evaluating the embedded code with the setup argument true, one new self
boost of the already-synced toot 5, and a succeeding retweet call shows the
Decision Engine running and mirroring anyway: a repost with id 102 is
created, the mapping ⟨12, 102⟩ is recorded and persisted.  The cause is
source line 65, `self.setup = False`, which ignores the setup argument. -/
theorem setup_mode_still_mirrors :
    Twoot.run env2 1 true data2 data2 100 false false =
      ⟨{ twoots := [⟨12, 102⟩, ⟨5, 50⟩], last_toot := some 12 }, [⟨12, 102⟩], none⟩ := by
  decide

/-- Claim C4: the claim says the truncation-and-assembly step must not
crash when the rendered text contains no URL token.  Evaluating the
embedded code on the rendered text "hello world" shows the assembly step
failing (the `re.search` result is absent, so `.group("url")` raises
AttributeError) and the error propagating out of the Decision Engine even
in a dry run. -/
theorem no_url_text_crashes_processing :
    Twoot.create_text "hello world" "https://ms.example/31" = none ∧
    Twoot.create_tweet_from_toot env4 1 [] [] toot4 true = ([], some PyErr.attributeError) := by
  decide

/-- Claim C7: the claim says that in a batch containing a self reply and
its parent, the parent is mirrored first and then the reply is posted as a
thread continuation.  Evaluating the embedded code on the newest-first
batch [reply 21, parent 20] in a non-dry run shows the parent being
mirrored (mapping ⟨20, 201⟩, so the oldest-first order itself is honoured)
and then the AttributeError of source line 612 aborting the batch: the
reply toot 21 is never evaluated and no reply tweet exists. -/
theorem self_reply_batch_aborts_before_child :
    Twoot.toots2tweets env7 1 [] [] [toot21, toot20] false =
      ([⟨20, 201⟩], some PyErr.attributeError) := by
  decide

/-- Claim C9: the claim says a failed image download yields an absent
result and processing continues.  Evaluating the embedded code shows that
`__download_image` itself returns absent as specified (both for a non-200
status and for a non-image content type), but the caller
`__post_media_to_twitter` unpacks that absent result outside its try
block and raises TypeError, which propagates instead of yielding an
absent media reference. -/
theorem media_download_failure_raises :
    Twoot.download_image get500 mediaImg.url = none ∧
    Twoot.post_media_to_twitter env9a mediaImg = Except.error PyErr.typeError ∧
    Twoot.download_image getHtml mediaImg.url = none ∧
    Twoot.post_media_to_twitter env9b mediaImg = Except.error PyErr.typeError :=
  ⟨rfl, rfl, rfl, rfl⟩

/-- Claim C3, counterexample: the claim says the ellipsis is appended
exactly when the URL-removed remainder exceeds the 230-character budget.
On a 240-character rendered text whose URL-removed remainder has only 2
characters, the code appends the ellipsis anyway, because source line 575
compares the length of the whole text (URL included) with the budget; the
claim would predict the unshortened reassembly, which differs. -/
theorem create_text_truncation_counterexample :
    Twoot.create_text c3Text "P" = some ("x ... " ++ c3Url ++ " P") ∧
    (Twoot.re_sub_url c3Text.toList).length = 2 ∧
    Twoot.create_text c3Text "P" ≠ some ("x " ++ " " ++ c3Url ++ " P") := by
  decide

/-- Claim C10, counterexample: the claim says the placeholder round-trip
cannot collide with any legitimate input, naming inputs that already
contain a token such as "&nbsp;" or "<br>".  The escape step of the
embedded code maps the one-character input " " and the distinct input
"&nbsp;" to the same character sequence (and likewise "\n" and "<br>"),
so no subsequent conversion function can restore both originals. -/
theorem escape_collision_counterexample :
    Twoot.escape_html (" ".toList) = Twoot.escape_html ("&nbsp;".toList) ∧
    (" " : String) ≠ "&nbsp;" ∧
    Twoot.escape_html ("\n".toList) = Twoot.escape_html ("<br>".toList) ∧
    ("\n" : String) ≠ "<br>" := by
  decide
